import Mathlib

/-!
Shallow embedding of the notion-mcp-server gateway (src/unnamed/part_000, the
variant with the direct JSON-RPC /mcp endpoint; src/server.js holds the same
tool registry and dispatcher).  JavaScript values flowing through the handlers
are modelled by an inductive JSON type `J`; the JavaScript value `undefined`
is modelled as `none` in `Option J` (abbreviated `JSVal`).  The external
Notion client is an oracle `UpstreamCall → Except String J`; handlers return
the trace of upstream calls they perform.  Exceptions are `Except String`
with the thrown message.
-/

namespace NotionMCP

/-- A parsed JSON value (the result of express.json body parsing, and the
payloads exchanged with the Notion client). -/
inductive J where
  | null : J
  | bool (b : Bool) : J
  | num (n : Int) : J
  | str (s : String) : J
  | arr (elems : List J) : J
  | obj (fields : List (String × J)) : J

/-- A JavaScript value as seen by the handlers: `none` models `undefined`,
`some v` a defined JSON value. -/
abbrev JSVal := Option J

/-- Field lookup on a JavaScript object literal: duplicate keys resolve to the
last occurrence, as in JavaScript / JSON.parse. -/
def jsLookup (fields : List (String × J)) (k : String) : JSVal :=
  ((fields.filter (fun p => p.1 = k)).getLast?).map (fun p => p.2)

/-- The message of a native TypeError.  V8 messages are engine specific; the
model uses one fixed message, and no claim depends on its text. -/
def typeErrorMessage : String := "TypeError"

/-- Property access (also used for destructuring): reading a property of
`undefined` or `null` throws a TypeError; primitives are wrapped into objects
that own none of the property names this server ever reads, so access on them
yields `undefined`. -/
def jsGet (v : JSVal) (k : String) : Except String JSVal :=
  match v with
  | none => .error typeErrorMessage
  | some J.null => .error typeErrorMessage
  | some (J.obj fields) => .ok (jsLookup fields k)
  | some _ => .ok none

/-- JavaScript truthiness of a value (NaN is not representable in the model). -/
def jsTruthy : JSVal → Bool
  | none => false
  | some J.null => false
  | some (J.bool b) => b
  | some (J.num n) => n != 0
  | some (J.str s) => s != ""
  | some (J.arr _) => true
  | some (J.obj _) => true

/-- Models the expression `v || undefined` used for optional arguments. -/
def jsOrUndefined (v : JSVal) : JSVal :=
  if jsTruthy v then v else none

mutual

/-- String conversion of a JSON value, as in template-literal interpolation. -/
def jsDisplayJ : J → String
  | .null => "null"
  | .bool true => "true"
  | .bool false => "false"
  | .num n => toString n
  | .str s => s
  | .arr xs => jsDisplayList xs
  | .obj _ => "[object Object]"

/-- Array-to-string conversion joins the elements with commas. -/
def jsDisplayList : List J → String
  | [] => ""
  | [x] => jsDisplayElem x
  | x :: xs => jsDisplayElem x ++ "," ++ jsDisplayList xs

/-- Inside an array-to-string conversion, `null` renders as the empty string. -/
def jsDisplayElem : J → String
  | .null => ""
  | .bool true => "true"
  | .bool false => "false"
  | .num n => toString n
  | .str s => s
  | .arr xs => jsDisplayList xs
  | .obj _ => "[object Object]"

end

/-- String conversion of a JavaScript value (`undefined` renders as the word
undefined, as in the template literal building the unknown-tool message). -/
def jsDisplay : JSVal → String
  | none => "undefined"
  | some v => jsDisplayJ v

/-- JSON string escaping for serialization. -/
def quoteJson (s : String) : String :=
  "\"" ++ String.join (s.toList.map (fun c =>
    if c = '"' then "\\\""
    else if c = '\\' then "\\\\"
    else if c = '\n' then "\\n"
    else if c = '\t' then "\\t"
    else if c = '\r' then "\\r"
    else String.singleton c)) ++ "\""

mutual

/-- Serialization of a JSON value.  Models `JSON.stringify(result, null, 2)`
up to insignificant whitespace; no claim depends on the whitespace. -/
def jsonStringify : J → String
  | .null => "null"
  | .bool true => "true"
  | .bool false => "false"
  | .num n => toString n
  | .str s => quoteJson s
  | .arr xs => "[" ++ jsonStringifyElems xs ++ "]"
  | .obj fs => "\x7b" ++ jsonStringifyFields fs ++ "\x7d"

def jsonStringifyElems : List J → String
  | [] => ""
  | [x] => jsonStringify x
  | x :: xs => jsonStringify x ++ "," ++ jsonStringifyElems xs

def jsonStringifyFields : List (String × J) → String
  | [] => ""
  | [(k, v)] => quoteJson k ++ ":" ++ jsonStringify v
  | (k, v) :: fs => quoteJson k ++ ":" ++ jsonStringify v ++ "," ++ jsonStringifyFields fs

end

/-- The parent reference chosen for `notion.pages.create`: either a
database_id reference or a page_id reference carrying the given value. -/
inductive Parent where
  | databaseId (v : JSVal)
  | pageId (v : JSVal)

/-- A body block passed in the `children` array of `notion.pages.create`:
the code only ever builds paragraph blocks whose `paragraph.rich_text` array
holds runs of the form `[ text: [ content: c ] ]`; `richTextContents` lists
the `content` value of each run. -/
structure ParagraphBlock where
  object : String
  type : String
  richTextContents : List JSVal

/-- The single content block built from the `content` argument. -/
def contentBlock (c : JSVal) : ParagraphBlock :=
  ⟨"block", "paragraph", [c]⟩

/-- The filter object used by notion_list_databases:
`[ property: 'object', value: 'database' ]`. -/
def databasesFilter : J :=
  J.obj [("property", J.str "object"), ("value", J.str "database")]

/-- One call to the Notion client collaborator, carrying the exact argument
values the dispatcher passes.  notion_list_databases is issued as a `search`
call (the code passes only the fixed filter; the absent query key is modelled
as `none`, the same as an explicit undefined). -/
inductive UpstreamCall where
  | search (query : JSVal) (filter : JSVal)
  | pagesCreate (parent : Parent) (titleRuns : List JSVal)
      (children : List ParagraphBlock)
  | pagesRetrieve (pageId : JSVal)
  | pagesUpdate (pageId : JSVal) (properties : JSVal)
  | databasesQuery (databaseId : JSVal) (filter : JSVal) (sorts : JSVal)

/-- Models `args.parent_id.includes('-')`: defined on strings (substring
containment; for the one-character needle this is character containment) and
arrays (element containment); any other receiver throws a TypeError (property
access on null or undefined, or calling a non-function on other primitives). -/
def jsIncludesDash : JSVal → Except String Bool
  | some (J.str s) => .ok (s.toList.contains '-')
  | some (J.arr xs) => .ok (xs.any (fun x => match x with
      | J.str t => t = "-"
      | _ => false))
  | _ => .error typeErrorMessage

/-- Models `v.length === 36`: strings (length in characters, which matches
the JavaScript UTF-16 code-unit count for all strings of basic-plane
characters such as Notion IDs) and arrays have a numeric length; on any other
value the property is undefined and the strict comparison is false. -/
def jsLenEq36 : JSVal → Bool
  | some (J.str s) => s.length == 36
  | some (J.arr xs) => xs.length == 36
  | _ => false

/-- Runs the upstream call prepared by a switch branch: if preparing the call
arguments threw (TypeError from reading a field of an undefined args bag),
no upstream call happens; otherwise exactly one call is issued and its
outcome is the branch outcome. -/
def runUpstream (notion : UpstreamCall → Except String J)
    (c : Except String UpstreamCall) : List UpstreamCall × Except String J :=
  match c with
  | .error e => ([], .error e)
  | .ok call => ([call], notion call)

/-- The body of the switch statement in the tool dispatcher: selects the
upstream call by tool name, or throws the unknown-tool error.  Returns the
list of upstream calls performed together with the outcome. -/
def switchBranch (notion : UpstreamCall → Except String J)
    (name args : JSVal) : List UpstreamCall × Except String J :=
  match name with
  | some (J.str s) =>
    if s = "notion_search" then
      runUpstream notion (do
        let q ← jsGet args "query"
        let f ← jsGet args "filter"
        pure (.search q (jsOrUndefined f)))
    else if s = "notion_create_page" then
      runUpstream notion (do
        let pid ← jsGet args "parent_id"
        let inc ← jsIncludesDash pid
        let parent := if inc && jsLenEq36 pid then
            Parent.databaseId pid
          else
            Parent.pageId pid
        let title ← jsGet args "title"
        let c ← jsGet args "content"
        pure (.pagesCreate parent [title]
          (if jsTruthy c then [contentBlock c] else [])))
    else if s = "notion_get_page" then
      runUpstream notion (do
        let pid ← jsGet args "page_id"
        pure (.pagesRetrieve pid))
    else if s = "notion_update_page" then
      runUpstream notion (do
        let pid ← jsGet args "page_id"
        let props ← jsGet args "properties"
        pure (.pagesUpdate pid props))
    else if s = "notion_list_databases" then
      runUpstream notion (pure (.search none (some databasesFilter)))
    else if s = "notion_query_database" then
      runUpstream notion (do
        let dbid ← jsGet args "database_id"
        let f ← jsGet args "filter"
        let so ← jsGet args "sorts"
        pure (.databasesQuery dbid (jsOrUndefined f) (jsOrUndefined so)))
    else
      ([], .error ("Unknown tool: " ++ s))
  | other => ([], .error ("Unknown tool: " ++ jsDisplay other))

/-- A content item of the MCP result wrapper. -/
structure ContentItem where
  type : String
  text : String

/-- The MCP result wrapper returned by the tool dispatcher.  `isError = false`
models the key being absent on the success wrapper. -/
structure ToolResult where
  content : List ContentItem
  isError : Bool

/-- The success wrapper: the serialized collaborator result as one text item. -/
def successResult (r : J) : ToolResult :=
  ⟨[⟨"text", jsonStringify r⟩], false⟩

/-- The catch-block wrapper: the thrown message prefixed with the word Error. -/
def errorResult (msg : String) : ToolResult :=
  ⟨[⟨"text", "Error: " ++ msg⟩], true⟩

/-- The tool dispatcher (`callToolHandler` in the source).  The destructuring
of `request.params` happens before the try block, so a TypeError there escapes
the handler (the outer `Except.error`); everything thrown inside the switch or
by the collaborator is caught and converted to an error wrapper.  Also returns
the trace of upstream calls performed. -/
def callToolHandler (notion : UpstreamCall → Except String J)
    (request : JSVal) : Except String (ToolResult × List UpstreamCall) := do
  let params ← jsGet request "params"
  let name ← jsGet params "name"
  let args ← jsGet params "arguments"
  match switchBranch notion name args with
  | (calls, .ok r) => pure (successResult r, calls)
  | (calls, .error msg) => pure (errorResult msg, calls)

/-- The six registered tool names, in catalog order. -/
def toolNames : List String :=
  ["notion_search", "notion_create_page", "notion_get_page",
   "notion_update_page", "notion_list_databases", "notion_query_database"]

/-- One property entry of a tool input schema. -/
structure PropSchema where
  type : String
  description : String

/-- A tool input schema: JSON-Schema-like object with named properties and a
required list; `required = none` models the key being absent (as it is for
notion_list_databases). -/
structure InputSchema where
  type : String
  properties : List (String × PropSchema)
  required : Option (List String)

/-- One entry of the tool catalog. -/
structure ToolDef where
  name : String
  description : String
  inputSchema : InputSchema

/-- The catalog wrapper returned by the list-tools handler. -/
structure ToolCatalog where
  tools : List ToolDef

/-- The list-tools handler (`listToolsHandler` in the source): a constant
literal, transcribed field by field. -/
def listToolsHandler : ToolCatalog :=
  ⟨[⟨"notion_search", "Search Notion pages and databases",
      ⟨"object",
        [("query", ⟨"string", "Search query"⟩),
         ("filter", ⟨"object", "Optional filter object"⟩)],
        some ["query"]⟩⟩,
    ⟨"notion_create_page", "Create a new page in Notion",
      ⟨"object",
        [("parent_id", ⟨"string", "Parent page or database ID"⟩),
         ("title", ⟨"string", "Page title"⟩),
         ("content", ⟨"string", "Page content (optional)"⟩)],
        some ["parent_id", "title"]⟩⟩,
    ⟨"notion_get_page", "Get a Notion page by ID",
      ⟨"object",
        [("page_id", ⟨"string", "Page ID"⟩)],
        some ["page_id"]⟩⟩,
    ⟨"notion_update_page", "Update a Notion page",
      ⟨"object",
        [("page_id", ⟨"string", "Page ID"⟩),
         ("properties", ⟨"object", "Page properties to update"⟩)],
        some ["page_id", "properties"]⟩⟩,
    ⟨"notion_list_databases",
      "List all databases the integration has access to",
      ⟨"object", [], none⟩⟩,
    ⟨"notion_query_database", "Query a database with filters and sorts",
      ⟨"object",
        [("database_id", ⟨"string", "Database ID"⟩),
         ("filter", ⟨"object", "Optional filter object"⟩),
         ("sorts", ⟨"array", "Optional sort array"⟩)],
        some ["database_id"]⟩⟩]⟩

/-- JSON encoding of a schema property entry. -/
def encodePropSchema (p : PropSchema) : J :=
  J.obj [("type", J.str p.type), ("description", J.str p.description)]

/-- JSON encoding of a tool input schema; an absent required list produces no
required key. -/
def encodeInputSchema (s : InputSchema) : J :=
  J.obj ([("type", J.str s.type),
          ("properties",
            J.obj (s.properties.map (fun kv => (kv.1, encodePropSchema kv.2))))]
    ++ (match s.required with
        | none => []
        | some rs => [("required", J.arr (rs.map J.str))]))

/-- JSON encoding of a catalog entry. -/
def encodeToolDef (t : ToolDef) : J :=
  J.obj [("name", J.str t.name), ("description", J.str t.description),
         ("inputSchema", encodeInputSchema t.inputSchema)]

/-- JSON encoding of the catalog wrapper. -/
def encodeToolCatalog (c : ToolCatalog) : J :=
  J.obj [("tools", J.arr (c.tools.map encodeToolDef))]

/-- A key-value pair for a response object, omitted when the value is
undefined: `res.json` serializes with JSON.stringify, which drops keys whose
value is undefined. -/
def objField (k : String) (v : JSVal) : List (String × J) :=
  match v with
  | none => []
  | some x => [(k, x)]

/-- A JSON-RPC success envelope with the given id (omitted when undefined). -/
def rpcResult (id : JSVal) (result : J) : J :=
  J.obj ([("jsonrpc", J.str "2.0")] ++ objField "id" id ++ [("result", result)])

/-- A JSON-RPC error envelope with the given id (omitted when undefined). -/
def rpcError (id : JSVal) (code : Int) (msg : String) : J :=
  J.obj ([("jsonrpc", J.str "2.0")] ++ objField "id" id
    ++ [("error", J.obj [("code", J.num code), ("message", J.str msg)])])

/-- JSON encoding of a wrapper content item. -/
def encodeContentItem (i : ContentItem) : J :=
  J.obj [("type", J.str i.type), ("text", J.str i.text)]

/-- JSON encoding of the dispatcher result wrapper; the isError key appears
only on the error wrapper. -/
def encodeToolResult (r : ToolResult) : J :=
  J.obj ([("content", J.arr (r.content.map encodeContentItem))]
    ++ (if r.isError then [("isError", J.bool true)] else []))

/-- The static result of the initialize method. -/
def initializeResult : J :=
  J.obj [("protocolVersion", J.str "2025-03-26"),
         ("capabilities", J.obj [("tools", J.obj [])]),
         ("serverInfo", J.obj [("name", J.str "notion-mcp-server"),
                               ("version", J.str "1.0.0")])]

/-- The observable outcome of an express handler: a JSON response with an
HTTP status, or a fault.  A fault models a throw inside the catch block: the
async handler rejects without having sent a JSON-RPC response (express
default error handling takes over); the model records only that no JSON-RPC
response was produced. -/
inductive HttpResponse where
  | json (status : Nat) (body : J)
  | fault (msg : String)

/-- The HTTP status of a JSON response. -/
def httpStatus : HttpResponse → Option Nat
  | .json status _ => some status
  | .fault _ => none

/-- The if-else chain on request.method inside the try block of the POST
/mcp handler, selecting among initialize, notifications/initialized,
tools/list, tools/call, and the method-not-found fallback. -/
def mcpMethodSelect (notion : UpstreamCall → Except String J) (body : J) :
    JSVal → Except String (HttpResponse × List UpstreamCall)
  | some (J.str s) =>
    if s = "initialize" then do
      let id ← jsGet (some body) "id"
      pure (.json 200 (rpcResult id initializeResult), [])
    else if s = "notifications/initialized" then
      pure (.json 200 (J.obj [("received", J.bool true)]), [])
    else if s = "tools/list" then do
      let id ← jsGet (some body) "id"
      pure (.json 200 (rpcResult id (encodeToolCatalog listToolsHandler)), [])
    else if s = "tools/call" then do
      let r ← callToolHandler notion (some body)
      let id ← jsGet (some body) "id"
      pure (.json 200 (rpcResult id (encodeToolResult r.1)), r.2)
    else do
      let id ← jsGet (some body) "id"
      pure (.json 400 (rpcError id (-32601) ("Method not found: " ++ s)), [])
  | other => do
    let id ← jsGet (some body) "id"
    pure (.json 400 (rpcError id (-32601)
      ("Method not found: " ++ jsDisplay other)), [])

/-- The POST /mcp endpoint handler: the method dispatch `mcpMethodSelect`
runs inside the try block; a throw escaping it (only possible from the
tools/call destructuring, or from reading a property of a null body) is
caught and answered with a -32603 error, unless reading the id in the catch
block itself throws (null body), in which case the handler faults.  Every
error path of the try block happens before any upstream call, so a caught
throw leaves an empty trace.  Note that express.json() in its default strict
mode only ever delivers an object or an array as the parsed body. -/
def mcpPost (notion : UpstreamCall → Except String J) (body : J) :
    HttpResponse × List UpstreamCall :=
  match (do
      let m ← jsGet (some body) "method"
      mcpMethodSelect notion body m :
      Except String (HttpResponse × List UpstreamCall)) with
  | .ok r => r
  | .error msg =>
    match jsGet (some body) "id" with
    | .ok id => (.json 500 (rpcError id (-32603) msg), [])
    | .error e => (.fault e, [])

/-- The POST /message endpoint handler of the streaming variant: acknowledges
any frame body with HTTP 202 and performs no dispatch and no upstream call. -/
def messagePost (_body : J) : HttpResponse × List UpstreamCall :=
  (.json 202 (J.obj [("received", J.bool true)]), [])

/-- The process environment at startup. -/
structure Env where
  NOTION_API_KEY : Option String
  PORT : Option String

/-- The listen target: `process.env.PORT || 10000` (the env string when set
and nonempty, else the number 10000). -/
def portOf (env : Env) : J :=
  match env.PORT with
  | some s => if s != "" then J.str s else J.num 10000
  | none => J.num 10000

/-- The observable startup outcome: either the process exited with a code, or
it reached `app.listen` on the given port and host.  The exit happens before
`app.listen` in program order, so an exited outcome binds no socket; the
outcome type makes the two mutually exclusive. -/
inductive StartupOutcome where
  | exited (code : Nat)
  | listening (port : J) (host : String)

/-- Whether startup reached the listening state. -/
def StartupOutcome.isListening : StartupOutcome → Bool
  | .exited _ => false
  | .listening _ _ => true

/-- The startup sequence: `if (!NOTION_API_KEY) [ process.exit(1) ]` runs
before `app.listen(PORT, '0.0.0.0')`; an unset variable is undefined (falsy)
and a variable set to the empty string is also falsy. -/
def startup (env : Env) : StartupOutcome :=
  match env.NOTION_API_KEY with
  | none => .exited 1
  | some key => if key = "" then .exited 1 else .listening (portOf env) "0.0.0.0"

/-- A well-formed MCP tool-call request carrying the given name and arguments
values (an undefined value leaves its key absent, which reads back the same). -/
def toolCallRequest (name args : JSVal) : JSVal :=
  some (J.obj [("params",
    J.obj (objField "name" name ++ objField "arguments" args))])

/-- A collaborator stub used to evaluate concrete dispatches. -/
def stubNotion : UpstreamCall → Except String J :=
  fun _ => .ok J.null

/-- The parent reference of the single pages.create call of a dispatch, when
there is one. -/
def sentParent (r : Except String (ToolResult × List UpstreamCall)) :
    Option Parent :=
  match r with
  | .ok (_, [UpstreamCall.pagesCreate p _ _]) => some p
  | _ => none

end NotionMCP

namespace NotionMCP

theorem bindOk {α β : Type} (a : α) (f : α → Except String β) :
    (Except.ok a : Except String α) >>= f = f a := rfl

theorem lookupName (name args : JSVal) :
    jsLookup (objField "name" name ++ objField "arguments" args) "name"
      = name := by
  cases name <;> cases args <;> rfl

theorem lookupArguments (name args : JSVal) :
    jsLookup (objField "name" name ++ objField "arguments" args) "arguments"
      = args := by
  cases name <;> cases args <;> rfl

/-- Dispatching a well-formed request reduces to the switch body wrapped by
the try and catch blocks. -/
theorem callToolHandler_request (notion : UpstreamCall → Except String J)
    (name args : JSVal) :
    callToolHandler notion (toolCallRequest name args) =
      (match switchBranch notion name args with
       | (calls, .ok r) => .ok (successResult r, calls)
       | (calls, .error msg) => .ok (errorResult msg, calls)) := by
  show (jsGet (jsLookup [("params",
      J.obj (objField "name" name ++ objField "arguments" args))] "params")
      "name" >>= fun n =>
    jsGet (jsLookup [("params",
      J.obj (objField "name" name ++ objField "arguments" args))] "params")
      "arguments" >>= fun a =>
    (match switchBranch notion n a with
     | (calls, .ok r) => pure (successResult r, calls)
     | (calls, .error msg) => pure (errorResult msg, calls))) = _
  have h : jsLookup [("params",
      J.obj (objField "name" name ++ objField "arguments" args))] "params"
      = some (J.obj (objField "name" name ++ objField "arguments" args)) := rfl
  rw [h]
  show (Except.ok (jsLookup (objField "name" name
      ++ objField "arguments" args) "name") >>= fun n =>
    Except.ok (jsLookup (objField "name" name
      ++ objField "arguments" args) "arguments") >>= fun a =>
    (match switchBranch notion n a with
     | (calls, .ok r) => pure (successResult r, calls)
     | (calls, .error msg) => pure (errorResult msg, calls))) = _
  rw [bindOk, bindOk, lookupName, lookupArguments]
  rfl

/-- The switch selects the create-page branch for the matching name. -/
theorem switchBranch_create_page (notion : UpstreamCall → Except String J)
    (args : JSVal) :
    switchBranch notion (some (J.str "notion_create_page")) args =
      runUpstream notion (do
        let pid ← jsGet args "parent_id"
        let inc ← jsIncludesDash pid
        let parent := if inc && jsLenEq36 pid then
            Parent.databaseId pid
          else
            Parent.pageId pid
        let title ← jsGet args "title"
        let c ← jsGet args "content"
        pure (.pagesCreate parent [title]
          (if jsTruthy c then [contentBlock c] else []))) := by
  rfl

theorem parentCtorNe (v w : JSVal) : Parent.databaseId v ≠ Parent.pageId w := by
  intro h
  exact Parent.noConfusion h

/-- The full create-page dispatch with a string parent_id: the branch issues
one pages.create call whose parent is chosen by the hyphen-and-length rule. -/
theorem createPageTrace (notion : UpstreamCall → Except String J)
    (argFs : List (String × J)) (pid : String)
    (hpid : jsLookup argFs "parent_id" = some (J.str pid)) :
    switchBranch notion (some (J.str "notion_create_page"))
        (some (J.obj argFs)) =
      runUpstream notion (Except.ok (UpstreamCall.pagesCreate
        (if pid.toList.contains '-' && (pid.length == 36) then
          Parent.databaseId (some (J.str pid))
        else
          Parent.pageId (some (J.str pid)))
        [jsLookup argFs "title"]
        (if jsTruthy (jsLookup argFs "content") then
          [contentBlock (jsLookup argFs "content")]
        else
          []))) := by
  rw [switchBranch_create_page]
  have h1 : jsGet (some (J.obj argFs)) "parent_id"
      = Except.ok (some (J.str pid)) := by
    show Except.ok (jsLookup argFs "parent_id") = _
    rw [hpid]
  rw [h1, bindOk]
  rfl

/-- C1: for every dispatch of notion_create_page with a string parent_id, the
parent reference sent upstream is a database_id reference exactly when the
string contains a hyphen and its length is exactly 36, and a page_id
reference in every other case. -/
theorem createPageParentRouting (notion : UpstreamCall → Except String J)
    (argFs : List (String × J)) (pid : String)
    (hpid : jsLookup argFs "parent_id" = some (J.str pid)) :
    (sentParent (callToolHandler notion (toolCallRequest
        (some (J.str "notion_create_page")) (some (J.obj argFs))))
        = some (Parent.databaseId (some (J.str pid)))
      ↔ (pid.toList.contains '-' = true ∧ pid.length = 36)) ∧
    (sentParent (callToolHandler notion (toolCallRequest
        (some (J.str "notion_create_page")) (some (J.obj argFs))))
        = some (Parent.pageId (some (J.str pid)))
      ↔ ¬(pid.toList.contains '-' = true ∧ pid.length = 36)) := by
  have htrace : sentParent (callToolHandler notion (toolCallRequest
      (some (J.str "notion_create_page")) (some (J.obj argFs))))
      = some (if pid.toList.contains '-' && (pid.length == 36) then
          Parent.databaseId (some (J.str pid))
        else
          Parent.pageId (some (J.str pid))) := by
    rw [callToolHandler_request, createPageTrace notion argFs pid hpid]
    cases hn : notion (UpstreamCall.pagesCreate
        (if pid.toList.contains '-' && (pid.length == 36) then
          Parent.databaseId (some (J.str pid))
        else
          Parent.pageId (some (J.str pid)))
        [jsLookup argFs "title"]
        (if jsTruthy (jsLookup argFs "content") then
          [contentBlock (jsLookup argFs "content")]
        else
          [])) with
    | ok r =>
      simp only [runUpstream, hn]
      rfl
    | error m =>
      simp only [runUpstream, hn]
      rfl
  rw [htrace]
  by_cases hc : pid.toList.contains '-' = true ∧ pid.length = 36
  · have hb : (pid.toList.contains '-' && (pid.length == 36)) = true := by
      rw [hc.1, Bool.true_and]
      exact beq_iff_eq.mpr hc.2
    rw [hb, if_pos rfl]
    refine ⟨iff_of_true rfl hc, iff_of_false ?_ (not_not_intro hc)⟩
    intro h
    exact parentCtorNe _ _ (Option.some_inj.mp h)
  · have hb : (pid.toList.contains '-' && (pid.length == 36)) = false := by
      by_cases h1 : pid.toList.contains '-' = true
      · have h2 : pid.length ≠ 36 := fun h => hc ⟨h1, h⟩
        rw [h1, Bool.true_and]
        exact beq_eq_false_iff_ne.mpr h2
      · rw [Bool.eq_false_iff.mpr h1, Bool.false_and]
    rw [hb, if_neg (fun h => Bool.noConfusion h)]
    refine ⟨iff_of_false ?_ hc, iff_of_true rfl hc⟩
    intro h
    exact parentCtorNe _ _ (Option.some_inj.mp h).symm

/-- Witness for C1 at a hyphenated 36-character parent_id, which routes to a
database parent. -/
theorem createPageParentRouting_witness :
    sentParent (callToolHandler stubNotion (toolCallRequest
        (some (J.str "notion_create_page"))
        (some (J.obj [("parent_id",
          J.str "12345678-1234-1234-1234-123456789012")]))))
      = some (Parent.databaseId
          (some (J.str "12345678-1234-1234-1234-123456789012"))) :=
  ((createPageParentRouting stubNotion
      [("parent_id", J.str "12345678-1234-1234-1234-123456789012")]
      "12345678-1234-1234-1234-123456789012" rfl).1).mpr (by decide)

/-- The /mcp handler on an object body reduces to the method dispatch in the
try block with the catch block around it; property reads on the object body
never throw, so the handler cannot fault. -/
theorem mcpPost_obj (notion : UpstreamCall → Except String J)
    (fs : List (String × J)) :
    mcpPost notion (J.obj fs) =
      (match mcpMethodSelect notion (J.obj fs) (jsLookup fs "method") with
       | .ok r => r
       | .error msg =>
           (.json 500 (rpcError (jsLookup fs "id") (-32603) msg), [])) := by
  show (match (Except.ok (jsLookup fs "method") >>= fun m =>
      mcpMethodSelect notion (J.obj fs) m :
      Except String (HttpResponse × List UpstreamCall)) with
    | .ok r => r
    | .error msg =>
      match jsGet (some (J.obj fs)) "id" with
      | .ok id => (.json 500 (rpcError id (-32603) msg), [])
      | .error e => (.fault e, [])) = _
  rw [bindOk]
  cases mcpMethodSelect notion (J.obj fs) (jsLookup fs "method") with
  | ok r => rfl
  | error msg => rfl

theorem notInToolNames {s : String} (hs : s ∉ toolNames) :
    ¬ s = "notion_search" ∧ ¬ s = "notion_create_page" ∧
    ¬ s = "notion_get_page" ∧ ¬ s = "notion_update_page" ∧
    ¬ s = "notion_list_databases" ∧ ¬ s = "notion_query_database" := by
  refine ⟨?_, ?_, ?_, ?_, ?_, ?_⟩ <;>
    (intro h; apply hs; rw [h]; simp [toolNames])

/-- C2: a tool-call request whose name is a string outside the registry is
answered with the unknown-tool error wrapper and issues no upstream call. -/
theorem unknownToolNoUpstream (notion : UpstreamCall → Except String J)
    (args : JSVal) (s : String) (hs : s ∉ toolNames) :
    callToolHandler notion (toolCallRequest (some (J.str s)) args)
      = .ok (errorResult ("Unknown tool: " ++ s), []) := by
  obtain ⟨h1, h2, h3, h4, h5, h6⟩ := notInToolNames hs
  rw [callToolHandler_request]
  have hb : switchBranch notion (some (J.str s)) args
      = ([], .error ("Unknown tool: " ++ s)) := by
    simp only [switchBranch, if_neg h1, if_neg h2, if_neg h3, if_neg h4,
      if_neg h5, if_neg h6]
  rw [hb]

/-- Witness for C2 at the unregistered name unknown_tool. -/
theorem unknownToolNoUpstream_witness :
    callToolHandler stubNotion
        (toolCallRequest (some (J.str "unknown_tool")) none)
      = .ok (errorResult ("Unknown tool: " ++ "unknown_tool"), []) :=
  unknownToolNoUpstream stubNotion none "unknown_tool" (by decide)

/-- Wraps a collaborator outcome the way the try and catch blocks do. -/
def wrapOutcome : Except String J → ToolResult
  | .ok r => successResult r
  | .error m => errorResult m

/-- A branch that prepared an upstream call successfully issues exactly that
call and wraps its outcome. -/
theorem callsOfDispatch (notion : UpstreamCall → Except String J)
    (name args : JSVal) (call : UpstreamCall)
    (h : switchBranch notion name args = runUpstream notion (.ok call)) :
    callToolHandler notion (toolCallRequest name args)
      = .ok (wrapOutcome (notion call), [call]) := by
  rw [callToolHandler_request, h]
  cases hn : notion call with
  | ok r => simp only [runUpstream, hn]; rfl
  | error m => simp only [runUpstream, hn]; rfl

/-- The title runs of the single pages.create call of a dispatch. -/
def sentTitleRuns (r : Except String (ToolResult × List UpstreamCall)) :
    Option (List JSVal) :=
  match r with
  | .ok (_, [UpstreamCall.pagesCreate _ t _]) => some t
  | _ => none

/-- The children array of the single pages.create call of a dispatch. -/
def sentChildren (r : Except String (ToolResult × List UpstreamCall)) :
    Option (List ParagraphBlock) :=
  match r with
  | .ok (_, [UpstreamCall.pagesCreate _ _ ch]) => some ch
  | _ => none

/-- C3: a notion_create_page dispatch sends a title property with exactly one
rich-text run equal to the title argument; the children array is empty when
content is absent or the empty string, and contains exactly one paragraph
block whose single rich-text run is the content string verbatim when content
is a non-empty string. -/
theorem createPageBodyBlocks (notion : UpstreamCall → Except String J)
    (argFs : List (String × J)) (pid : String)
    (hpid : jsLookup argFs "parent_id" = some (J.str pid)) :
    (sentTitleRuns (callToolHandler notion (toolCallRequest
        (some (J.str "notion_create_page")) (some (J.obj argFs))))
      = some [jsLookup argFs "title"]) ∧
    ((jsLookup argFs "content" = none ∨
      jsLookup argFs "content" = some (J.str "")) →
      sentChildren (callToolHandler notion (toolCallRequest
        (some (J.str "notion_create_page")) (some (J.obj argFs))))
        = some []) ∧
    (∀ c : String, jsLookup argFs "content" = some (J.str c) → c ≠ "" →
      sentChildren (callToolHandler notion (toolCallRequest
        (some (J.str "notion_create_page")) (some (J.obj argFs))))
        = some [⟨"block", "paragraph", [some (J.str c)]⟩]) := by
  have h := callsOfDispatch notion (some (J.str "notion_create_page"))
    (some (J.obj argFs)) _ (createPageTrace notion argFs pid hpid)
  refine ⟨?_, ?_, ?_⟩
  · rw [h]
    rfl
  · rintro (hc | hc) <;> rw [h, hc] <;> rfl
  · intro c hc hne
    rw [h, hc]
    have ht : jsTruthy (some (J.str c)) = true := by
      show (c != "") = true
      exact bne_iff_ne.mpr hne
    rw [ht, if_pos rfl]
    rfl

/-- Witness for C3 at a concrete request with non-empty content. -/
theorem createPageBodyBlocks_witness :
    sentChildren (callToolHandler stubNotion (toolCallRequest
        (some (J.str "notion_create_page"))
        (some (J.obj [("parent_id", J.str "p1"), ("title", J.str "T"),
          ("content", J.str "hello")]))))
      = some [⟨"block", "paragraph", [some (J.str "hello")]⟩] :=
  (createPageBodyBlocks stubNotion
      [("parent_id", J.str "p1"), ("title", J.str "T"),
       ("content", J.str "hello")] "p1" rfl).2.2 "hello" rfl (by decide)

theorem runUpstream_outcome (notion : UpstreamCall → Except String J)
    (c : Except String UpstreamCall) (call : UpstreamCall)
    (h : (runUpstream notion c).1 = [call]) :
    (runUpstream notion c).2 = notion call := by
  cases c with
  | error e => exact absurd h (fun hh => List.noConfusion hh)
  | ok c2 =>
    have hh : [c2] = [call] := h
    injection hh with hhead htail
    show notion c2 = notion call
    rw [hhead]

/-- Whenever the switch issued exactly one upstream call, its outcome is the
outcome of that call. -/
theorem switchBranch_outcome (notion : UpstreamCall → Except String J)
    (name args : JSVal) (call : UpstreamCall)
    (h : (switchBranch notion name args).1 = [call]) :
    (switchBranch notion name args).2 = notion call := by
  cases name with
  | none => exact absurd h (fun hh => List.noConfusion hh)
  | some v =>
    cases v with
    | null => exact absurd h (fun hh => List.noConfusion hh)
    | bool b => exact absurd h (fun hh => List.noConfusion hh)
    | num n => exact absurd h (fun hh => List.noConfusion hh)
    | arr xs => exact absurd h (fun hh => List.noConfusion hh)
    | obj fs => exact absurd h (fun hh => List.noConfusion hh)
    | str s =>
      simp only [switchBranch] at h ⊢
      by_cases h1 : s = "notion_search"
      · rw [if_pos h1] at h ⊢
        exact runUpstream_outcome notion _ call h
      · rw [if_neg h1] at h ⊢
        by_cases h2 : s = "notion_create_page"
        · rw [if_pos h2] at h ⊢
          exact runUpstream_outcome notion _ call h
        · rw [if_neg h2] at h ⊢
          by_cases h3 : s = "notion_get_page"
          · rw [if_pos h3] at h ⊢
            exact runUpstream_outcome notion _ call h
          · rw [if_neg h3] at h ⊢
            by_cases h4 : s = "notion_update_page"
            · rw [if_pos h4] at h ⊢
              exact runUpstream_outcome notion _ call h
            · rw [if_neg h4] at h ⊢
              by_cases h5 : s = "notion_list_databases"
              · rw [if_pos h5] at h ⊢
                exact runUpstream_outcome notion _ call h
              · rw [if_neg h5] at h ⊢
                by_cases h6 : s = "notion_query_database"
                · rw [if_pos h6] at h ⊢
                  exact runUpstream_outcome notion _ call h
                · rw [if_neg h6] at h ⊢
                  exact absurd h (fun hh => List.noConfusion hh)

/-- A collaborator stub that always raises the message Not found. -/
def errNotion : UpstreamCall → Except String J :=
  fun _ => .error "Not found"

/-- C4: a dispatch that issued one upstream call wraps that call's outcome
as the content wrapper (serialized result on success, isError plus the
prefixed message on an exception, which never escapes the dispatcher); over
the JSON-RPC adapter, a returned wrapper is delivered as an HTTP 200
response carrying the in-band result. -/
theorem toolCallWrapping (notion : UpstreamCall → Except String J) :
    (∀ (name args : JSVal) (res : ToolResult) (calls : List UpstreamCall)
        (call : UpstreamCall),
      callToolHandler notion (toolCallRequest name args) = .ok (res, calls) →
      calls = [call] → res = wrapOutcome (notion call)) ∧
    (∀ (fs : List (String × J)) (res : ToolResult)
        (calls : List UpstreamCall),
      jsLookup fs "method" = some (J.str "tools/call") →
      callToolHandler notion (some (J.obj fs)) = .ok (res, calls) →
      mcpPost notion (J.obj fs)
        = (.json 200 (rpcResult (jsLookup fs "id") (encodeToolResult res)),
           calls)) := by
  constructor
  · intro name args res calls call hok hcalls
    subst hcalls
    rw [callToolHandler_request] at hok
    rcases hsb : switchBranch notion name args with ⟨cs, out⟩
    rw [hsb] at hok
    cases out with
    | ok r =>
      have hok2 : Except.ok (successResult r, cs)
          = (Except.ok (res, [call]) :
             Except String (ToolResult × List UpstreamCall)) := hok
      injection hok2 with hp
      injection hp with hres hcs
      have hsb1 : (switchBranch notion name args).1 = [call] := by
        rw [hsb]
        exact hcs
      have hout : (switchBranch notion name args).2 = notion call :=
        switchBranch_outcome notion name args call hsb1
      rw [hsb] at hout
      have hout2 : Except.ok r = notion call := hout
      rw [← hres, ← hout2]
      rfl
    | error m =>
      have hok2 : Except.ok (errorResult m, cs)
          = (Except.ok (res, [call]) :
             Except String (ToolResult × List UpstreamCall)) := hok
      injection hok2 with hp
      injection hp with hres hcs
      have hsb1 : (switchBranch notion name args).1 = [call] := by
        rw [hsb]
        exact hcs
      have hout : (switchBranch notion name args).2 = notion call :=
        switchBranch_outcome notion name args call hsb1
      rw [hsb] at hout
      have hout2 : Except.error m = notion call := hout
      rw [← hres, ← hout2]
      rfl
  · intro fs res calls hm hok
    rw [mcpPost_obj, hm]
    have hsel : mcpMethodSelect notion (J.obj fs)
        (some (J.str "tools/call"))
        = (do
            let r ← callToolHandler notion (some (J.obj fs))
            let id ← jsGet (some (J.obj fs)) "id"
            pure ((.json 200 (rpcResult id (encodeToolResult r.1)), r.2) :
              HttpResponse × List UpstreamCall)) := rfl
    rw [hsel, hok, bindOk]
    rfl

/-- Witness for C4: the Not found scenario over the JSON-RPC adapter is an
HTTP 200 response whose in-band result is the isError wrapper. -/
theorem toolCallWrapping_witness :
    mcpPost errNotion (J.obj [("jsonrpc", J.str "2.0"), ("id", J.num 1),
        ("method", J.str "tools/call"),
        ("params", J.obj [("name", J.str "notion_get_page"),
          ("arguments", J.obj [("page_id", J.str "abc123")])])])
      = (.json 200 (rpcResult (some (J.num 1))
            (encodeToolResult (errorResult "Not found"))),
         [UpstreamCall.pagesRetrieve (some (J.str "abc123"))]) :=
  (toolCallWrapping errNotion).2
    [("jsonrpc", J.str "2.0"), ("id", J.num 1),
     ("method", J.str "tools/call"),
     ("params", J.obj [("name", J.str "notion_get_page"),
       ("arguments", J.obj [("page_id", J.str "abc123")])])]
    (errorResult "Not found")
    [UpstreamCall.pagesRetrieve (some (J.str "abc123"))] rfl rfl

/-- The /mcp handler on an object body with method tools/call: a wrapper
returned by the dispatcher is sent as HTTP 200; a throw escaping the
dispatcher is answered with the -32603 envelope at HTTP 500. -/
theorem mcpPost_toolsCall (notion : UpstreamCall → Except String J)
    (fs : List (String × J))
    (hm : jsLookup fs "method" = some (J.str "tools/call")) :
    mcpPost notion (J.obj fs)
      = (match callToolHandler notion (some (J.obj fs)) with
         | .ok r =>
             (.json 200 (rpcResult (jsLookup fs "id") (encodeToolResult r.1)),
              r.2)
         | .error msg =>
             (.json 500 (rpcError (jsLookup fs "id") (-32603) msg), [])) := by
  rw [mcpPost_obj, hm]
  have hsel : mcpMethodSelect notion (J.obj fs) (some (J.str "tools/call"))
      = (do
          let r ← callToolHandler notion (some (J.obj fs))
          let id ← jsGet (some (J.obj fs)) "id"
          pure ((.json 200 (rpcResult id (encodeToolResult r.1)), r.2) :
            HttpResponse × List UpstreamCall)) := rfl
  rw [hsel]
  cases hE : callToolHandler notion (some (J.obj fs)) with
  | ok r => rfl
  | error msg => rfl

/-- C5 (amended): on an object body, the /mcp adapter echoes the request id
unchanged for initialize, tools/list, tools/call (success or caught fault)
and unrecognized methods (which yield code -32601); the one exception is
notifications/initialized, answered with a plain received acknowledgement
that carries no id. -/
theorem rpcAdapterIdEcho (notion : UpstreamCall → Except String J)
    (fs : List (String × J)) :
    (jsLookup fs "method" = some (J.str "initialize") →
      mcpPost notion (J.obj fs)
        = (.json 200 (rpcResult (jsLookup fs "id") initializeResult), [])) ∧
    (jsLookup fs "method" = some (J.str "notifications/initialized") →
      mcpPost notion (J.obj fs)
        = (.json 200 (J.obj [("received", J.bool true)]), [])) ∧
    (jsLookup fs "method" = some (J.str "tools/list") →
      mcpPost notion (J.obj fs)
        = (.json 200 (rpcResult (jsLookup fs "id")
            (encodeToolCatalog listToolsHandler)), [])) ∧
    (jsLookup fs "method" = some (J.str "tools/call") →
      ((∃ res calls, mcpPost notion (J.obj fs)
          = (.json 200 (rpcResult (jsLookup fs "id") (encodeToolResult res)),
             calls)) ∨
       (∃ msg, mcpPost notion (J.obj fs)
          = (.json 500 (rpcError (jsLookup fs "id") (-32603) msg), [])))) ∧
    (∀ s : String, jsLookup fs "method" = some (J.str s) →
      s ∉ ["initialize", "notifications/initialized", "tools/list",
           "tools/call"] →
      mcpPost notion (J.obj fs)
        = (.json 400 (rpcError (jsLookup fs "id") (-32601)
            ("Method not found: " ++ s)), [])) ∧
    (∀ m : JSVal, jsLookup fs "method" = m →
      (∀ s : String, m ≠ some (J.str s)) →
      mcpPost notion (J.obj fs)
        = (.json 400 (rpcError (jsLookup fs "id") (-32601)
            ("Method not found: " ++ jsDisplay m)), [])) := by
  refine ⟨?_, ?_, ?_, ?_, ?_, ?_⟩
  · intro hm
    rw [mcpPost_obj, hm]
    rfl
  · intro hm
    rw [mcpPost_obj, hm]
    rfl
  · intro hm
    rw [mcpPost_obj, hm]
    rfl
  · intro hm
    rw [mcpPost_toolsCall notion fs hm]
    cases hE : callToolHandler notion (some (J.obj fs)) with
    | ok r => exact Or.inl ⟨r.1, r.2, rfl⟩
    | error msg => exact Or.inr ⟨msg, rfl⟩
  · intro s hm hs
    have h1 : ¬ s = "initialize" := fun h => hs (by rw [h]; simp)
    have h2 : ¬ s = "notifications/initialized" := fun h =>
      hs (by rw [h]; simp)
    have h3 : ¬ s = "tools/list" := fun h => hs (by rw [h]; simp)
    have h4 : ¬ s = "tools/call" := fun h => hs (by rw [h]; simp)
    rw [mcpPost_obj, hm]
    simp only [mcpMethodSelect, if_neg h1, if_neg h2, if_neg h3, if_neg h4]
    rfl
  · intro m hm hns
    rw [mcpPost_obj, hm]
    cases m with
    | none => rfl
    | some v =>
      cases v with
      | null => rfl
      | bool b => rfl
      | num n => rfl
      | arr xs => rfl
      | obj gs => rfl
      | str s => exact absurd rfl (hns s)

/-- Counterexample to C5 as stated: a notifications/initialized request with
id 1 is acknowledged with a body that carries no id at all. -/
theorem rpcAdapterIdEcho_counterexample :
    mcpPost stubNotion (J.obj [("jsonrpc", J.str "2.0"), ("id", J.num 1),
        ("method", J.str "notifications/initialized")])
      = (.json 200 (J.obj [("received", J.bool true)]), []) ∧
    jsLookup [("received", J.bool true)] "id" = none :=
  ⟨rfl, rfl⟩

/-- Witness for the amended C5 at a concrete unrecognized method. -/
theorem rpcAdapterIdEcho_witness :
    mcpPost stubNotion (J.obj [("id", J.num 3), ("method", J.str "foo/bar")])
      = (.json 400 (rpcError (some (J.num 3)) (-32601)
          ("Method not found: " ++ "foo/bar")), []) :=
  (rpcAdapterIdEcho stubNotion
      [("id", J.num 3), ("method", J.str "foo/bar")]).2.2.2.2.1
    "foo/bar" rfl (by decide)

/-- C6: the catalog is the fixed 6-entry list with exactly these names and
required argument lists, in this order; through the adapter, tools/list
returns the same encoding of this constant for every collaborator state and
performs zero upstream calls. -/
theorem listToolsCatalog :
    (listToolsHandler.tools.length = 6) ∧
    (listToolsHandler.tools.map (fun t => t.name) = toolNames) ∧
    (listToolsHandler.tools.map (fun t => t.inputSchema.required)
      = [some ["query"], some ["parent_id", "title"], some ["page_id"],
         some ["page_id", "properties"], none, some ["database_id"]]) ∧
    (∀ (notion : UpstreamCall → Except String J) (fs : List (String × J)),
      jsLookup fs "method" = some (J.str "tools/list") →
      mcpPost notion (J.obj fs)
        = (.json 200 (rpcResult (jsLookup fs "id")
            (encodeToolCatalog listToolsHandler)), [])) := by
  refine ⟨rfl, rfl, rfl, ?_⟩
  intro notion fs hm
  rw [mcpPost_obj, hm]
  rfl

/-- Witness for C6 on a concrete tools/list request. -/
theorem listToolsCatalog_witness :
    mcpPost stubNotion (J.obj [("id", J.num 2), ("method", J.str "tools/list")])
      = (.json 200 (rpcResult (some (J.num 2))
          (encodeToolCatalog listToolsHandler)), []) :=
  listToolsCatalog.2.2.2 stubNotion
    [("id", J.num 2), ("method", J.str "tools/list")] rfl

/-- The full trace of a dispatch that did not escape. -/
def sentCalls (r : Except String (ToolResult × List UpstreamCall)) :
    Option (List UpstreamCall) :=
  match r with
  | .ok (_, calls) => some calls
  | .error _ => none

/-- C7 (amended): notion_search and notion_query_database forward query and
database_id verbatim and pass filter and sorts through the or-undefined
coercion: a truthy value is forwarded exactly as given, while an absent
field, and likewise any falsy present value, is forwarded as undefined —
never as an empty object. -/
theorem searchQueryForwarding (notion : UpstreamCall → Except String J)
    (argFs : List (String × J)) :
    (sentCalls (callToolHandler notion (toolCallRequest
        (some (J.str "notion_search")) (some (J.obj argFs))))
      = some [UpstreamCall.search (jsLookup argFs "query")
          (jsOrUndefined (jsLookup argFs "filter"))]) ∧
    (sentCalls (callToolHandler notion (toolCallRequest
        (some (J.str "notion_query_database")) (some (J.obj argFs))))
      = some [UpstreamCall.databasesQuery (jsLookup argFs "database_id")
          (jsOrUndefined (jsLookup argFs "filter"))
          (jsOrUndefined (jsLookup argFs "sorts"))]) ∧
    (jsOrUndefined none = none) ∧
    (∀ v : JSVal, jsTruthy v = true → jsOrUndefined v = v) ∧
    (∀ v : JSVal, jsTruthy v = false → jsOrUndefined v = none) := by
  refine ⟨?_, ?_, rfl, ?_, ?_⟩
  · rw [callsOfDispatch notion (some (J.str "notion_search"))
      (some (J.obj argFs))
      (UpstreamCall.search (jsLookup argFs "query")
        (jsOrUndefined (jsLookup argFs "filter"))) rfl]
    rfl
  · rw [callsOfDispatch notion (some (J.str "notion_query_database"))
      (some (J.obj argFs))
      (UpstreamCall.databasesQuery (jsLookup argFs "database_id")
        (jsOrUndefined (jsLookup argFs "filter"))
        (jsOrUndefined (jsLookup argFs "sorts"))) rfl]
    rfl
  · intro v hv
    simp only [jsOrUndefined]
    rw [hv, if_pos rfl]
  · intro v hv
    simp only [jsOrUndefined]
    rw [hv, if_neg (fun hh => Bool.noConfusion hh)]

/-- Counterexample to C7 as stated: a present but falsy filter (the JSON
value false) is not forwarded as given — the dispatcher coerces it to
undefined. -/
theorem searchQueryForwarding_counterexample :
    sentCalls (callToolHandler stubNotion (toolCallRequest
        (some (J.str "notion_search"))
        (some (J.obj [("query", J.str "q"), ("filter", J.bool false)]))))
      = some [UpstreamCall.search (some (J.str "q")) none] ∧
    (some [UpstreamCall.search (some (J.str "q")) none] :
        Option (List UpstreamCall))
      ≠ some [UpstreamCall.search (some (J.str "q"))
          (some (J.bool false))] := by
  refine ⟨rfl, ?_⟩
  intro h
  injection h with h1
  injection h1 with h2 h3
  injection h2 with hq hf
  exact Option.noConfusion hf

/-- Witness for the amended C7: an absent filter goes upstream as undefined,
and a truthy given value (here an empty object) is forwarded exactly. -/
theorem searchQueryForwarding_witness :
    sentCalls (callToolHandler stubNotion (toolCallRequest
        (some (J.str "notion_search")) (some (J.obj [("query", J.str "q")]))))
      = some [UpstreamCall.search (some (J.str "q")) none] ∧
    jsOrUndefined (some (J.obj [])) = some (J.obj []) := by
  constructor
  · rw [(searchQueryForwarding stubNotion [("query", J.str "q")]).1]
    rfl
  · exact (searchQueryForwarding stubNotion []).2.2.2.1 (some (J.obj [])) rfl

/-- C8: the streaming-variant message endpoint acknowledges every frame body
with HTTP 202 and the received flag, performing no dispatch and no upstream
call. -/
theorem messageAlwaysAck (body : J) :
    messagePost body = (.json 202 (J.obj [("received", J.bool true)]), []) :=
  rfl

/-- C9 (amended): startup exits with code 1 before listening when the
NOTION_API_KEY variable is absent or set to the empty string (both falsy);
with a non-empty key it proceeds to listen on the configured port, which
defaults to 10000. -/
theorem startupKeyGate (env : Env) :
    ((env.NOTION_API_KEY = none ∨ env.NOTION_API_KEY = some "") →
      startup env = .exited 1) ∧
    (∀ key : String, env.NOTION_API_KEY = some key → key ≠ "" →
      startup env = .listening (portOf env) "0.0.0.0") ∧
    (env.PORT = none → portOf env = J.num 10000) := by
  refine ⟨?_, ?_, ?_⟩
  · rintro (h | h)
    · simp only [startup, h]
    · simp only [startup, h]
      rw [if_true]
  · intro key h hne
    simp only [startup, h]
    rw [if_neg hne]
  · intro h
    simp only [portOf, h]

/-- Counterexample to C9 as stated: a key that is present but empty does not
lead to listening — the process exits. -/
theorem startupKeyGate_counterexample :
    (Env.mk (some "") none).NOTION_API_KEY ≠ none ∧
    startup (Env.mk (some "") none) = StartupOutcome.exited 1 := by
  refine ⟨?_, rfl⟩
  intro h
  exact Option.noConfusion h

/-- Witness for the amended C9: a non-empty key listens on the default port. -/
theorem startupKeyGate_witness :
    startup (Env.mk (some "secret") none)
      = StartupOutcome.listening (J.num 10000) "0.0.0.0" :=
  (startupKeyGate (Env.mk (some "secret") none)).2.1 "secret" rfl (by decide)

/-- Reading params of a request throws exactly like the destructuring in the
dispatcher, and the throw happens before the try block, escaping the
handler. -/
theorem callToolHandler_paramsThrow (notion : UpstreamCall → Except String J)
    (request : JSVal) (p : JSVal)
    (hp : jsGet request "params" = .ok p)
    (hthrow : jsGet p "name" = .error typeErrorMessage) :
    callToolHandler notion request = .error typeErrorMessage := by
  show (jsGet request "params" >>= fun params =>
    jsGet params "name" >>= fun name =>
    jsGet params "arguments" >>= fun args =>
    (match switchBranch notion name args with
     | (calls, .ok r) => pure (successResult r, calls)
     | (calls, .error msg) => pure (errorResult msg, calls))) = _
  rw [hp, bindOk, hthrow]
  rfl

/-- C10 (amended): a tools/call request whose params field is absent or null
makes the destructuring throw before the try block; the transport-level
handler answers with code -32603 at HTTP 500 and no upstream call is made.
(A params value that is a non-null primitive does not throw: it destructures
to an undefined tool name and yields the in-band unknown-tool error at
HTTP 200 instead.) -/
theorem toolsCallParamsNullFault (notion : UpstreamCall → Except String J)
    (fs : List (String × J))
    (hm : jsLookup fs "method" = some (J.str "tools/call"))
    (hp : jsLookup fs "params" = none ∨ jsLookup fs "params" = some J.null) :
    mcpPost notion (J.obj fs)
      = (.json 500 (rpcError (jsLookup fs "id") (-32603) typeErrorMessage),
         []) := by
  have hpth : jsGet (jsLookup fs "params") "name" = .error typeErrorMessage := by
    rcases hp with hp | hp <;> rw [hp] <;> rfl
  have hcall := callToolHandler_paramsThrow notion (some (J.obj fs))
    (jsLookup fs "params") rfl hpth
  rw [mcpPost_toolsCall notion fs hm, hcall]

/-- Counterexample to C10 as stated: params being the number 5 is not an
object, yet the adapter answers HTTP 200 with the in-band unknown-tool
wrapper, not a -32603 fault at HTTP 500. -/
theorem toolsCallParamsNullFault_counterexample :
    mcpPost stubNotion (J.obj [("jsonrpc", J.str "2.0"), ("id", J.num 7),
        ("method", J.str "tools/call"), ("params", J.num 5)])
      = (.json 200 (rpcResult (some (J.num 7))
          (encodeToolResult (errorResult "Unknown tool: undefined"))), []) ∧
    httpStatus (mcpPost stubNotion (J.obj [("jsonrpc", J.str "2.0"),
        ("id", J.num 7), ("method", J.str "tools/call"),
        ("params", J.num 5)])).1 = some 200 :=
  ⟨rfl, rfl⟩

/-- Witness for the amended C10: a tools/call body without params faults to
the -32603 envelope at HTTP 500. -/
theorem toolsCallParamsNullFault_witness :
    mcpPost stubNotion (J.obj [("jsonrpc", J.str "2.0"), ("id", J.num 9),
        ("method", J.str "tools/call")])
      = (.json 500 (rpcError (some (J.num 9)) (-32603) typeErrorMessage),
         []) :=
  toolsCallParamsNullFault stubNotion
    [("jsonrpc", J.str "2.0"), ("id", J.num 9),
     ("method", J.str "tools/call")] rfl (Or.inl rfl)

end NotionMCP
